import Mathlib

/-!
Shallow embedding of the `transmission` package (a Transmission RPC client):
the session-token probe, the RPC transport, the `Stats` and `Add` operations,
and the JSON struct decoding they rely on.

Modelling conventions:
* The Go `(T, error)` multi-return is `T × Option Err` (zero value paired with
  the error, exactly as the source returns them).
* The network is an explicit `Network` value: the headers of the response to
  the probe GET, and a function from the outgoing POST request to the raw
  response body. HTTP, TLS and timeouts live outside the model.
* A response body (Go `[]byte`) is `Option Json`: `some j` for text that
  parses as the JSON value `j`, `none` for nil/unparseable bytes, so
  the parse failure of `json.Unmarshal` is one more decoding error.
* JSON numbers are `Int` (the struct fields in scope are Go `int`).
-/

namespace Transmission

/-- Generic JSON values (the image of `encoding/json` parsing). -/
inductive Json where
  | null
  | bool (b : Bool)
  | num (n : Int)
  | str (s : String)
  | arr (elems : List Json)
  | obj (fields : List (String × Json))

/-- Exact-key lookup in the field list of a JSON object (first binding wins,
as in a Go map). -/
def lookupFields : List (String × Json) → String → Option Json
  | [], _ => none
  | (k, v) :: rest, key => if k = key then some v else lookupFields rest key

/-- Lookup of a key in a JSON value; `none` unless it is an object holding
the key. -/
def Json.lookup (j : Json) (key : String) : Option Json :=
  match j with
  | .obj fields => lookupFields fields key
  | _ => none

/-- Whether a JSON value is an object carrying the given key. -/
def Json.hasKey (j : Json) (key : String) : Bool :=
  (j.lookup key).isSome

/-- ASCII case folding as used by `encoding/json` field matching
(`strings.EqualFold`; the field names in scope are ASCII). -/
def eqFold (a b : String) : Bool :=
  a.data.map Char.toLower == b.data.map Char.toLower

/-- Go struct `Statistics` — generic stats of Transmission.
Fields are Go `int` (note the `PausedTorrentcount` spelling of the source). -/
structure Statistics where
  DownloadSpeed : Int
  UploadSpeed : Int
  TorrentCount : Int
  ActiveTorrentCount : Int
  PausedTorrentcount : Int
deriving DecidableEq, Repr

/-- The Go zero value of `Statistics`. -/
def Statistics.zero : Statistics := ⟨0, 0, 0, 0, 0⟩

/-- Decoding, per `encoding/json`, of a JSON value into a Go `int` field:
numbers are taken, `null` is a no-op keeping the current value, anything
else is an unmarshal type error. -/
def decodeIntField (v : Json) (cur : Int) : Except String Int :=
  match v with
  | .null => .ok cur
  | .num n => .ok n
  | _ => .error "json: cannot unmarshal value into Go value of type int"

/-- Decoding, per `encoding/json`, of a JSON value into a Go `string` field. -/
def decodeStringField (v : Json) (cur : String) : Except String String :=
  match v with
  | .null => .ok cur
  | .str s => .ok s
  | _ => .error "json: cannot unmarshal value into Go value of type string"

/-- Field-by-field decoding of a JSON object into `Statistics`: keys are
matched to field names case-insensitively (no exact/fold ambiguity exists
here), unknown keys are ignored, later duplicates overwrite. -/
def decodeStatisticsFields : List (String × Json) → Statistics → Except String Statistics
  | [], s => .ok s
  | (k, v) :: rest, s =>
    if eqFold k "DownloadSpeed" then
      match decodeIntField v s.DownloadSpeed with
      | .error e => .error e
      | .ok n => decodeStatisticsFields rest { s with DownloadSpeed := n }
    else if eqFold k "UploadSpeed" then
      match decodeIntField v s.UploadSpeed with
      | .error e => .error e
      | .ok n => decodeStatisticsFields rest { s with UploadSpeed := n }
    else if eqFold k "TorrentCount" then
      match decodeIntField v s.TorrentCount with
      | .error e => .error e
      | .ok n => decodeStatisticsFields rest { s with TorrentCount := n }
    else if eqFold k "ActiveTorrentCount" then
      match decodeIntField v s.ActiveTorrentCount with
      | .error e => .error e
      | .ok n => decodeStatisticsFields rest { s with ActiveTorrentCount := n }
    else if eqFold k "PausedTorrentcount" then
      match decodeIntField v s.PausedTorrentcount with
      | .error e => .error e
      | .ok n => decodeStatisticsFields rest { s with PausedTorrentcount := n }
    else decodeStatisticsFields rest s

/-- Decoding a JSON value into `Statistics`: objects field-wise, `null`
a no-op, anything else a type error. -/
def decodeStatistics (v : Json) (cur : Statistics) : Except String Statistics :=
  match v with
  | .null => .ok cur
  | .obj fields => decodeStatisticsFields fields cur
  | _ => .error "json: cannot unmarshal value into Go value of type transmission.Statistics"

/-- Go struct `sessionStats` — the envelope `Stats` unmarshals into. -/
structure sessionStats where
  Arguments : Statistics
  Result : String
deriving DecidableEq, Repr

/-- Field-by-field decoding of a JSON object into `sessionStats`. -/
def decodeSessionStatsFields : List (String × Json) → sessionStats → Except String sessionStats
  | [], r => .ok r
  | (k, v) :: rest, r =>
    if eqFold k "Arguments" then
      match decodeStatistics v r.Arguments with
      | .error e => .error e
      | .ok a => decodeSessionStatsFields rest { r with Arguments := a }
    else if eqFold k "Result" then
      match decodeStringField v r.Result with
      | .error e => .error e
      | .ok s => decodeSessionStatsFields rest { r with Result := s }
    else decodeSessionStatsFields rest r

/-- Decoding a JSON value into `sessionStats`. -/
def decodeSessionStats (v : Json) (cur : sessionStats) : Except String sessionStats :=
  match v with
  | .null => .ok cur
  | .obj fields => decodeSessionStatsFields fields cur
  | _ => .error "json: cannot unmarshal value into Go value of type transmission.sessionStats"

/-- Model of `json.Unmarshal` into a fresh `var r sessionStats`: starts from the zero
value; nil or unparseable bytes are a parse error. -/
def unmarshalSessionStats (b : Option Json) : Except String sessionStats :=
  match b with
  | none => .error "unexpected end of JSON input"
  | some j => decodeSessionStats j ⟨Statistics.zero, ""⟩

/-- Go struct `torrentAdded` — Id, Name, HashString. -/
structure torrentAdded where
  Id : Int
  Name : String
  HashString : String
deriving DecidableEq, Repr

/-- Field-by-field decoding of a JSON object into `torrentAdded`. -/
def decodeTorrentAddedFields : List (String × Json) → torrentAdded → Except String torrentAdded
  | [], t => .ok t
  | (k, v) :: rest, t =>
    if eqFold k "Id" then
      match decodeIntField v t.Id with
      | .error e => .error e
      | .ok n => decodeTorrentAddedFields rest { t with Id := n }
    else if eqFold k "Name" then
      match decodeStringField v t.Name with
      | .error e => .error e
      | .ok s => decodeTorrentAddedFields rest { t with Name := s }
    else if eqFold k "HashString" then
      match decodeStringField v t.HashString with
      | .error e => .error e
      | .ok s => decodeTorrentAddedFields rest { t with HashString := s }
    else decodeTorrentAddedFields rest t

/-- Decoding a JSON value into `torrentAdded`. -/
def decodeTorrentAdded (v : Json) (cur : torrentAdded) : Except String torrentAdded :=
  match v with
  | .null => .ok cur
  | .obj fields => decodeTorrentAddedFields fields cur
  | _ => .error "json: cannot unmarshal value into Go value of type transmission.torrentAdded"

/-- Go struct `torrentAddedArguments` — its one field carries the JSON
tag `torrent-added`. -/
structure torrentAddedArguments where
  TorrentAdded : torrentAdded
deriving DecidableEq, Repr

/-- Field-by-field decoding of a JSON object into `torrentAddedArguments`;
the key matched (case-insensitively) is the tag `torrent-added`. -/
def decodeTorrentAddedArgumentsFields :
    List (String × Json) → torrentAddedArguments → Except String torrentAddedArguments
  | [], a => .ok a
  | (k, v) :: rest, a =>
    if eqFold k "torrent-added" then
      match decodeTorrentAdded v a.TorrentAdded with
      | .error e => .error e
      | .ok t => decodeTorrentAddedArgumentsFields rest { a with TorrentAdded := t }
    else decodeTorrentAddedArgumentsFields rest a

/-- Decoding a JSON value into `torrentAddedArguments`. -/
def decodeTorrentAddedArguments (v : Json) (cur : torrentAddedArguments) :
    Except String torrentAddedArguments :=
  match v with
  | .null => .ok cur
  | .obj fields => decodeTorrentAddedArgumentsFields fields cur
  | _ => .error "json: cannot unmarshal value into Go value of type transmission.torrentAddedArguments"

/-- Go struct `torrentAdd` — the envelope `Add` unmarshals into. -/
structure torrentAdd where
  Arguments : torrentAddedArguments
  Result : String
deriving DecidableEq, Repr

/-- Field-by-field decoding of a JSON object into `torrentAdd`. -/
def decodeTorrentAddFields : List (String × Json) → torrentAdd → Except String torrentAdd
  | [], r => .ok r
  | (k, v) :: rest, r =>
    if eqFold k "Arguments" then
      match decodeTorrentAddedArguments v r.Arguments with
      | .error e => .error e
      | .ok a => decodeTorrentAddFields rest { r with Arguments := a }
    else if eqFold k "Result" then
      match decodeStringField v r.Result with
      | .error e => .error e
      | .ok s => decodeTorrentAddFields rest { r with Result := s }
    else decodeTorrentAddFields rest r

/-- Decoding a JSON value into `torrentAdd`. -/
def decodeTorrentAdd (v : Json) (cur : torrentAdd) : Except String torrentAdd :=
  match v with
  | .null => .ok cur
  | .obj fields => decodeTorrentAddFields fields cur
  | _ => .error "json: cannot unmarshal value into Go value of type transmission.torrentAdd"

/-- Model of `json.Unmarshal` into a fresh `var r torrentAdd`. -/
def unmarshalTorrentAdd (b : Option Json) : Except String torrentAdd :=
  match b with
  | none => .error "unexpected end of JSON input"
  | some j => decodeTorrentAdd j ⟨⟨0, "", ""⟩, ""⟩

/-- Response headers of the probe GET, the Go `http.Header`
(`map[string][]string`; exact-key map access; first binding wins). -/
abbrev Header := List (String × List String)

/-- Go map access `resp.Header[key]`: `none` is `ok == false`. -/
def headerGet : Header → String → Option (List String)
  | [], _ => none
  | (k, vs) :: rest, key => if k = key then some vs else headerGet rest key

/-- Error taxonomy of the client, following the `error` values of the package:
`sessionError` is `errors.New` in `sessionId`, `operationError` carries the
reason interpolated by `fmt.Errorf` in `Stats`/`Add` (or the literal
`empty result`), `decodingError` is a `json.Unmarshal` failure, and
`transportError` any `http.Client`/read failure. `encodingError`
(`json.Marshal` failure) cannot arise for the JSON-representable requests
this client builds. -/
inductive Err where
  | transportError (msg : String)
  | sessionError (msg : String)
  | encodingError (msg : String)
  | decodingError (msg : String)
  | operationError (reason : String)
deriving DecidableEq, Repr

/-- The POST request `rpc` builds: target URL, the value it sets for the
`X-Transmission-Session-Id` header, and the marshalled body. -/
structure PostRequest where
  url : String
  sessionHeader : String
  body : Json

/-- The remote side as seen by one client call: headers of the response to
the probe GET on the RPC path (`.error` is a transport failure of the GET),
and the response body produced for an outgoing POST (`.error` a transport
or read failure; `some j` a body parsing to `j`, `none` an unparseable
body). -/
structure Network where
  probe : Except String Header
  post : PostRequest → Except String (Option Json)

/-- Go struct `Conn` — the endpoint URL. The `http.Client` (dial timeout,
TLS policy) is the transport collaborator, modelled by `Network`. -/
structure Conn where
  url : String

/-- Model of `func (c *Conn) sessionId() (string, error)`: GET the RPC path, read
the `X-Transmission-Session-Id` response header, fail when the key is
absent or its value list is empty, else return its first value. -/
def Conn.sessionId (c : Conn) (net : Network) : String × Option Err :=
  match net.probe with
  | .error msg => ("", some (.transportError msg))
  | .ok headers =>
    match headerGet headers "X-Transmission-Session-Id" with
    | none => ("", some (.sessionError "transmission: sessionId not found"))
    | some [] => ("", some (.sessionError "transmission: sessionId not found"))
    | some (v :: _) => (v, none)

/-- Model of the rpc method `func (c *Conn) rpc(request interface) ([]byte, error)`: fetch a
session ID, marshal the request (never fails for the JSON values this
client passes), POST it with the `X-Transmission-Session-Id` header set to
the fetched ID, and return the response body. The second component records
the POST actually issued (`none` when the call failed before sending);
`http.NewRequest` failure (malformed URL) is abstracted away. -/
def Conn.rpc (c : Conn) (net : Network) (request : Json) :
    (Option Json × Option Err) × Option PostRequest :=
  match c.sessionId net with
  | (_, some e) => ((none, some e), none)
  | (sessId, none) =>
    let req : PostRequest := ⟨c.url ++ "/transmission/rpc", sessId, request⟩
    match net.post req with
    | .error msg => ((none, some (.transportError msg)), some req)
    | .ok b => ((b, none), some req)

/-- The request value `Stats` passes to `rpc`:
`json.Marshal` of `map[string]string` with the single key `method`. -/
def statsRequest : Json :=
  .obj [("method", .str "session-stats")]

/-- The request value `Add` passes to `rpc`: nested string-keyed maps;
fields listed in the alphabetical key order `json.Marshal` emits. -/
def addRequest (url : String) : Json :=
  .obj [("arguments", .obj [("filename", .str url), ("paused", .bool false)]),
        ("method", .str "torrent-add")]

/-- Model of `func (c *Conn) Stats() (*Statistics, error)`: rpc `session-stats`,
unmarshal the envelope, fail on a non-`success` result, else return the
decoded arguments. -/
def Conn.Stats (c : Conn) (net : Network) : Option Statistics × Option Err :=
  match (c.rpc net statsRequest).1 with
  | (_, some e) => (none, some e)
  | (b, none) =>
    match unmarshalSessionStats b with
    | .error msg => (none, some (.decodingError msg))
    | .ok r =>
      if r.Result ≠ "success" then (none, some (.operationError r.Result))
      else (some r.Arguments, none)

/-- Model of `func (c *Conn) Add(url string) (string, error)`: rpc `torrent-add`
with `paused: false` and `filename: url`, unmarshal the envelope, fail on
a non-`success` result or an empty added-torrent name, else return the
name. -/
def Conn.Add (c : Conn) (net : Network) (url : String) : String × Option Err :=
  match (c.rpc net (addRequest url)).1 with
  | (_, some e) => ("", some e)
  | (b, none) =>
    match unmarshalTorrentAdd b with
    | .error msg => ("", some (.decodingError msg))
    | .ok r =>
      if r.Result ≠ "success" then ("", some (.operationError r.Result))
      else if r.Arguments.TorrentAdded.Name = "" then
        ("", some (.operationError "empty result"))
      else (r.Arguments.TorrentAdded.Name, none)

/-- Model of the Stringer method `func (s *Statistics) String() string`: Go `/` on `int` truncates
toward zero (`Int.tdiv`); `%v` renders an `int` in decimal. -/
def Statistics.render (s : Statistics) : String :=
  toString (Int.tdiv s.DownloadSpeed 1024) ++ " KB/s DL, " ++
  toString (Int.tdiv s.UploadSpeed 1024) ++ " KB/s UL, " ++
  toString s.TorrentCount ++ " torrents (" ++
  toString s.ActiveTorrentCount ++ " active, " ++
  toString s.PausedTorrentcount ++ " paused)"

/-! Concrete fixtures used to instantiate the theorems below. -/

/-- A concrete connection. -/
def connFx : Conn := ⟨"http://example.net:9091"⟩

/-- A probe response whose session header is present with the empty string
as its (single) value. -/
def emptyValueNet : Network :=
  ⟨.ok [("X-Transmission-Session-Id", [""])], fun _ => .ok none⟩

/-- A probe response without the session header. -/
def noHeaderNet : Network :=
  ⟨.ok [("Content-Type", ["text/html"])], fun _ => .ok none⟩

/-- A remote that hands out the given session token on the probe and
answers every POST with the given body. -/
def tokenNet (tok : String) (body : Option Json) : Network :=
  ⟨.ok [("X-Transmission-Session-Id", [tok])], fun _ => .ok body⟩

/-- The body with result failure and empty arguments. -/
def failureBody : Json :=
  .obj [("result", .str "failure"), ("arguments", .obj [])]

/-- The success body whose added torrent is named Ubuntu.iso. -/
def ubuntuBody : Json :=
  .obj [("result", .str "success"),
        ("arguments", .obj [("torrent-added",
          .obj [("Id", .num 1), ("Name", .str "Ubuntu.iso"),
                ("HashString", .str "abc123")])])]

/-- The success body whose added torrent has an empty name. -/
def emptyNameBody : Json :=
  .obj [("result", .str "success"),
        ("arguments", .obj [("torrent-added",
          .obj [("Id", .num 1), ("Name", .str ""), ("HashString", .str "")])])]

/-- The POST that `rpc` issues for the session-stats request under
`tokenNet "sess" _`. -/
def statsPost : PostRequest :=
  ⟨connFx.url ++ "/transmission/rpc", "sess", statsRequest⟩

/-- The POST that `rpc` issues for a torrent-add request under
`tokenNet "sess" _`. -/
def addPost : PostRequest :=
  ⟨connFx.url ++ "/transmission/rpc", "sess", addRequest "magnet:u"⟩

/-- Helper: `rpc` issues a POST exactly when the session-token fetch of the
same invocation succeeds, and that POST targets the RPC path, carries the
fetched token in its header, and the marshalled request as body. -/
theorem rpc_sent_eq (c : Conn) (net : Network) (request : Json) (p : PostRequest) :
    (c.rpc net request).2 = some p ↔
      (c.sessionId net).2 = none ∧
      p = ⟨c.url ++ "/transmission/rpc", (c.sessionId net).1, request⟩ := by
  unfold Conn.rpc
  rcases hsid : c.sessionId net with ⟨tok, e⟩
  cases e with
  | none =>
    cases hpost : net.post ⟨c.url ++ "/transmission/rpc", tok, request⟩ with
    | error msg => simp only [hpost]; simp [eq_comm]
    | ok b => simp only [hpost]; simp [eq_comm]
  | some err => simp

/-- C1 (counterexample): a probe response whose `X-Transmission-Session-Id`
header is present with the empty string as its value makes `sessionId`
return that empty token with NO error — contradicting the claim that this
case fails with a `SessionError`. -/
theorem C1_counterexample :
    headerGet [("X-Transmission-Session-Id", [""])] "X-Transmission-Session-Id"
        = some [""] ∧
      Conn.sessionId connFx emptyValueNet = ("", none) :=
  ⟨rfl, rfl⟩

/-- C1 (amended): with a successful probe GET, `sessionId` fails with the
`SessionError` exactly when the `X-Transmission-Session-Id` key is absent
or carries an empty value list; when the header is present with a first
value — the empty string included — it returns that value with no error. -/
theorem C1_session_error_iff (c : Conn) (net : Network) (hs : Header)
    (hp : net.probe = .ok hs) :
    (c.sessionId net).2 = some (Err.sessionError "transmission: sessionId not found") ↔
      headerGet hs "X-Transmission-Session-Id" = none ∨
      headerGet hs "X-Transmission-Session-Id" = some [] := by
  unfold Conn.sessionId
  rw [hp]
  cases hh : headerGet hs "X-Transmission-Session-Id" with
  | none => simp [hh]
  | some vs => cases vs <;> simp [hh]

/-- C1 (witness): a probe response without the header fails with the
`SessionError`. -/
theorem C1_session_error_iff_witness :
    (Conn.sessionId connFx noHeaderNet).2 =
      some (Err.sessionError "transmission: sessionId not found") :=
  (C1_session_error_iff connFx noHeaderNet [("Content-Type", ["text/html"])] rfl).mpr
    (Or.inl rfl)

/-- C2: when the probe response carries the `X-Transmission-Session-Id`
header with at least one value, `sessionId` returns that first value
exactly as received — no error, no trimming, casing change or other
transformation. -/
theorem C2_token_verbatim (c : Conn) (net : Network) (hs : Header)
    (v : String) (vs : List String)
    (hp : net.probe = .ok hs)
    (hh : headerGet hs "X-Transmission-Session-Id" = some (v :: vs)) :
    c.sessionId net = (v, none) := by
  unfold Conn.sessionId
  rw [hp]
  simp [hh]

/-- C2 (witness): a token with leading/trailing blanks and mixed case is
returned verbatim. -/
theorem C2_token_verbatim_witness :
    Conn.sessionId connFx (tokenNet " aBc==123 " none) = (" aBc==123 ", none) :=
  C2_token_verbatim connFx (tokenNet " aBc==123 " none)
    [("X-Transmission-Session-Id", [" aBc==123 "])] " aBc==123 " [] rfl rfl

/-- C3: whenever an invocation of `rpc` issues its POST, the session-token
fetch of that same invocation succeeded and the outgoing header value is
exactly that freshly fetched token; the transport holds no state across
calls (a `Conn` stores only the URL), so no earlier token can be reused. -/
theorem C3_fresh_token (c : Conn) (net : Network) (request : Json) (p : PostRequest)
    (hsent : (c.rpc net request).2 = some p) :
    (c.sessionId net).2 = none ∧ p.sessionHeader = (c.sessionId net).1 := by
  obtain ⟨h1, h2⟩ := (rpc_sent_eq c net request p).mp hsent
  exact ⟨h1, by rw [h2]⟩

/-- C3 (witness): under a concrete remote the POST issued for the
session-stats request carries the freshly fetched token `sess`. -/
theorem C3_fresh_token_witness :
    (Conn.sessionId connFx (tokenNet "sess" (some failureBody))).2 = none ∧
      statsPost.sessionHeader =
        (Conn.sessionId connFx (tokenNet "sess" (some failureBody))).1 :=
  C3_fresh_token connFx (tokenNet "sess" (some failureBody)) statsRequest statsPost rfl

/-- C4: for every body whose envelope decodes, `Stats` returns the decoded
`Statistics` when the result field is `success`, and otherwise fails with
the operation error carrying the remote-reported result string verbatim. -/
theorem C4_stats_envelope (c : Conn) (net : Network) (b : Option Json) (r : sessionStats)
    (hrpc : (c.rpc net statsRequest).1 = (b, none))
    (hdec : unmarshalSessionStats b = .ok r) :
    (r.Result = "success" → c.Stats net = (some r.Arguments, none)) ∧
    (r.Result ≠ "success" → c.Stats net = (none, some (.operationError r.Result))) := by
  constructor <;> intro h <;> simp [Conn.Stats, hrpc, hdec, h]

/-- C4 (witness): the body with result `failure` and empty arguments makes
`Stats` fail with the operation error carrying `failure`. -/
theorem C4_stats_envelope_witness :
    Conn.Stats connFx (tokenNet "sess" (some failureBody)) =
      (none, some (Err.operationError "failure")) :=
  (C4_stats_envelope connFx (tokenNet "sess" (some failureBody)) (some failureBody)
      ⟨Statistics.zero, "failure"⟩ rfl rfl).2 (by decide)

/-- C5: for every envelope with result `success` and a non-empty
added-torrent name, `Add` returns exactly that name and no error. -/
theorem C5_add_success (c : Conn) (net : Network) (url : String)
    (b : Option Json) (r : torrentAdd)
    (hrpc : (c.rpc net (addRequest url)).1 = (b, none))
    (hdec : unmarshalTorrentAdd b = .ok r)
    (hres : r.Result = "success")
    (hname : r.Arguments.TorrentAdded.Name ≠ "") :
    c.Add net url = (r.Arguments.TorrentAdded.Name, none) := by
  simp [Conn.Add, hrpc, hdec, hres, hname]

/-- C5 (witness): the Ubuntu.iso success body makes `Add` return
`Ubuntu.iso` with no error. -/
theorem C5_add_success_witness :
    Conn.Add connFx (tokenNet "sess" (some ubuntuBody))
        "http://example.net/ubuntu.torrent" = ("Ubuntu.iso", none) :=
  C5_add_success connFx (tokenNet "sess" (some ubuntuBody))
    "http://example.net/ubuntu.torrent" (some ubuntuBody)
    ⟨⟨1, "Ubuntu.iso", "abc123"⟩, "success"⟩ rfl rfl rfl (by decide)

/-- C6: for every envelope with result `success` but an empty decoded
added-torrent name, `Add` fails with the operation error `empty result`
rather than returning success. -/
theorem C6_add_empty_name (c : Conn) (net : Network) (url : String)
    (b : Option Json) (r : torrentAdd)
    (hrpc : (c.rpc net (addRequest url)).1 = (b, none))
    (hdec : unmarshalTorrentAdd b = .ok r)
    (hres : r.Result = "success")
    (hname : r.Arguments.TorrentAdded.Name = "") :
    c.Add net url = ("", some (Err.operationError "empty result")) := by
  simp [Conn.Add, hrpc, hdec, hres, hname]

/-- C6 (witness): the success body with an empty name makes `Add` fail
with the operation error `empty result`. -/
theorem C6_add_empty_name_witness :
    Conn.Add connFx (tokenNet "sess" (some emptyNameBody)) "magnet:u" =
      ("", some (Err.operationError "empty result")) :=
  C6_add_empty_name connFx (tokenNet "sess" (some emptyNameBody)) "magnet:u"
    (some emptyNameBody) ⟨⟨1, "", ""⟩, "success"⟩ rfl rfl rfl rfl

/-- C7: the human-readable rendering divides both speeds by 1024 (integer
division, exercised at 1048576 ↦ 1024) and lays out the three torrent
counts inline, yielding exactly the specified string on the given input. -/
theorem C7_render_example :
    Statistics.render ⟨1048576, 0, 3, 1, 2⟩ =
      "1024 KB/s DL, 0 KB/s UL, 3 torrents (1 active, 2 paused)" := rfl

/-- C8 (counterexample): the POST issued for the session-stats request —
under a remote that answers the probe — has a body containing the key
`method` but NOT the key `arguments`, contradicting the claim that every
RPC body carries both keys. -/
theorem C8_counterexample :
    ((Conn.rpc connFx (tokenNet "sess" (some failureBody)) statsRequest).2.map
        fun p => (p.body.hasKey "method", p.body.hasKey "arguments")) =
      some (true, false) := rfl

/-- C8 (amended): every POST body issued by `rpc` for the two requests this
client builds contains the key `method`; the torrent-add body also contains
the key `arguments`, but the session-stats body does not (its request map
has the single key `method`). -/
theorem C8_request_keys (c : Conn) (net : Network) (url : String) (p q : PostRequest)
    (hp : (c.rpc net statsRequest).2 = some p)
    (hq : (c.rpc net (addRequest url)).2 = some q) :
    p.body.hasKey "method" = true ∧ p.body.hasKey "arguments" = false ∧
    q.body.hasKey "method" = true ∧ q.body.hasKey "arguments" = true := by
  obtain ⟨-, rfl⟩ := (rpc_sent_eq c net statsRequest p).mp hp
  obtain ⟨-, rfl⟩ := (rpc_sent_eq c net (addRequest url) q).mp hq
  exact ⟨rfl, rfl, rfl, rfl⟩

/-- C8 (witness): key presence on the two concrete POSTs issued under a
concrete remote. -/
theorem C8_request_keys_witness :
    statsPost.body.hasKey "method" = true ∧
    statsPost.body.hasKey "arguments" = false ∧
    addPost.body.hasKey "method" = true ∧
    addPost.body.hasKey "arguments" = true :=
  C8_request_keys connFx (tokenNet "sess" (some failureBody)) "magnet:u"
    statsPost addPost rfl rfl

/-- C9: every POST issued for the torrent-add request carries the method
name `torrent-add` and exactly the arguments mapping pausing nothing and
naming the given URL under the `filename` key (fields in the alphabetical
order the marshaller emits). -/
theorem C9_add_request (c : Conn) (net : Network) (url : String) (p : PostRequest)
    (hsent : (c.rpc net (addRequest url)).2 = some p) :
    p.body.lookup "method" = some (.str "torrent-add") ∧
    p.body.lookup "arguments" =
      some (.obj [("filename", .str url), ("paused", .bool false)]) := by
  obtain ⟨-, rfl⟩ := (rpc_sent_eq c net (addRequest url) p).mp hsent
  exact ⟨rfl, rfl⟩

/-- C9 (witness): the concrete torrent-add POST for the URL `magnet:u`. -/
theorem C9_add_request_witness :
    addPost.body.lookup "method" = some (.str "torrent-add") ∧
    addPost.body.lookup "arguments" =
      some (.obj [("filename", .str "magnet:u"), ("paused", .bool false)]) :=
  C9_add_request connFx (tokenNet "sess" (some failureBody)) "magnet:u" addPost rfl

/-- C10: for every connection, remote and URL, `Add` returns no error
exactly when the returned name is non-empty: every error path hands back
the empty string, and the success path is guarded to a non-empty name. -/
theorem C10_add_name_iff (c : Conn) (net : Network) (url : String) :
    (c.Add net url).2 = none ↔ (c.Add net url).1 ≠ "" := by
  unfold Conn.Add
  rcases (c.rpc net (addRequest url)).1 with ⟨b, e⟩
  cases e with
  | some err => simp
  | none =>
    cases hdec : unmarshalTorrentAdd b with
    | error msg => simp [hdec]
    | ok r =>
      by_cases hres : r.Result = "success"
      · by_cases hname : r.Arguments.TorrentAdded.Name = "" <;>
          simp [hdec, hres, hname]
      · simp [hdec, hres]

end Transmission
